import Mathlib

/-!
Shallow embedding of the FeatureStore-lite repository.

The repository has two layers:

* `duckdb_featurestore` (`feature.py`, `exceptions.py`): `Feature` classes with a
  class-level `dependencies` list (entries are raw column-name strings or other
  `Feature` classes), a `networkx`-based dependency-graph builder
  (`dependency_graph` / `_add_dependencies_to_graph`), a cycle check
  (`assert_no_cyclic_dependencies`) and `root_dependencies`, plus the
  `FeatureMeta` metaclass that is supposed to validate that concrete
  subclasses implement `compute`.

* `fs_lite` (`feature.py`, `pandas/pandasfeaturestore.py`): an immutable
  `Feature` dataclass and a pandas executor (`compute_feature`,
  `PandasFeatureStore.compute`).

Feature classes are identified by `Nat` ids; the class-level `dependencies`
attribute of all classes in a program is a single environment
`Nat → Option (List Node)` (`none` models the default `dependencies = None`).
Graphs mirror `networkx.DiGraph` insertion-ordered node and edge lists.
-/

namespace DuckdbFeatureStore

/-- A dependency-graph node: either a raw column-name string or a `Feature`
class (identified by a numeric id, standing for Python object identity). -/
inductive Node where
  | col (name : String)
  | feat (id : Nat)
deriving DecidableEq, Repr

/-- Errors raised by the graph operations, mirroring `exceptions.py` plus the
built-in Python errors the code can hit. -/
inductive PyError where
  | typeError
  | cyclicDependencyException
  | missingMethodException
  | recursionError
deriving DecidableEq, Repr

/-- A `networkx.DiGraph` restricted to what the source uses: insertion-ordered
node list and insertion-ordered directed edge list. -/
structure Graph where
  nodes : List Node
  edges : List (Node × Node)
deriving DecidableEq, Repr

/-- `DiGraph.add_node`: adding an existing node is a no-op. -/
def Graph.add_node (g : Graph) (n : Node) : Graph :=
  if n ∈ g.nodes then g else { g with nodes := g.nodes ++ [n] }

/-- `DiGraph.add_edge(u, v)`: inserts the endpoints if missing, then the edge
`u → v`; adding an existing edge is a no-op. -/
def Graph.add_edge (g : Graph) (u v : Node) : Graph :=
  let g1 := (g.add_node u).add_node v
  if (u, v) ∈ g1.edges then g1 else { g1 with edges := g1.edges ++ [(u, v)] }

/-- `DiGraph.has_predecessor(u, v)`: true iff the graph has the edge `v → u`. -/
def Graph.has_predecessor (g : Graph) (u v : Node) : Bool :=
  decide ((v, u) ∈ g.edges)

/-- `DiGraph.predecessors(n)`: sources of the edges into `n`. -/
def Graph.predecessors (g : Graph) (n : Node) : List Node :=
  (g.edges.filter (fun e => e.2 = n)).map (fun e => e.1)

/-- `DiGraph.successors(n)`: targets of the edges out of `n`. -/
def Graph.successors (g : Graph) (n : Node) : List Node :=
  (g.edges.filter (fun e => e.1 = n)).map (fun e => e.2)

/-- One step of forward closure: a set together with all successors of its
members. -/
def Graph.reachStep (g : Graph) (s : List Node) : List Node :=
  (s ++ s.flatMap g.successors).dedup

/-- Nodes reachable from `n` by at least one edge, computed by saturating the
successor relation (`g.nodes.length` rounds suffice on a graph whose edges
stay inside `g.nodes`). -/
def Graph.reachableFrom (g : Graph) (n : Node) : List Node :=
  (g.reachStep)^[g.nodes.length] (g.successors n)

/-- `networkx.is_directed_acyclic_graph`: no node lies on a directed cycle,
i.e. no node reaches itself by a nonempty path. -/
def Graph.is_directed_acyclic_graph (g : Graph) : Bool :=
  g.nodes.all (fun n => decide (n ∉ g.reachableFrom n))

/-- Python's default recursion limit, standing in for the stack bound on the
recursion in `_add_dependencies_to_graph`. -/
def RECURSION_LIMIT : Nat := 1000

mutual

/-- `Feature._add_dependencies_to_graph(graph)`, for the class `cls` whose
`dependencies` attribute is `env cls`. Iterating a `None` dependencies
attribute raises `TypeError`. The `fuel` argument models Python's recursion
limit; it is threaded for faithfulness but (as proved below) the recursive
branch is never taken, because `graph.has_predecessor(dep, cls)` is queried
right after `graph.add_edge(cls, dep)` inserted exactly that edge. (In the
source the guard is `isinstance(dep, Feature) and not graph.has_predecessor(dep, cls)`;
the `isinstance` conjunct is modelled as "the entry is a Feature class".) -/
def add_dependencies_to_graph (env : Nat → Option (List Node)) (fuel : Nat)
    (cls : Nat) (graph : Graph) : Except PyError Graph :=
  match fuel with
  | 0 => .error .recursionError
  | Nat.succ f =>
    match env cls with
    | none => .error .typeError
    | some deps => add_dependencies_loop env f cls deps graph
termination_by (fuel, 0, 0)

/-- The `for dep in cls.dependencies` loop body of
`Feature._add_dependencies_to_graph`. -/
def add_dependencies_loop (env : Nat → Option (List Node)) (fuel : Nat)
    (cls : Nat) (deps : List Node) (graph : Graph) : Except PyError Graph :=
  match deps with
  | [] => .ok graph
  | dep :: rest =>
    let g1 := (graph.add_node dep).add_edge (Node.feat cls) dep
    match dep with
    | Node.col _ => add_dependencies_loop env fuel cls rest g1
    | Node.feat d =>
      if !(g1.has_predecessor dep (Node.feat cls)) then
        match add_dependencies_to_graph env fuel d g1 with
        | .error e => .error e
        | .ok g2 => add_dependencies_loop env fuel cls rest g2
      else
        add_dependencies_loop env fuel cls rest g1
termination_by (fuel, 1, deps.length)

end

/-- `Feature.dependency_graph()`: fresh graph, add the class itself, then add
its dependencies. -/
def dependency_graph (env : Nat → Option (List Node)) (cls : Nat) :
    Except PyError Graph :=
  let graph := (Graph.mk [] []).add_node (Node.feat cls)
  add_dependencies_to_graph env RECURSION_LIMIT cls graph

/-- `Feature.assert_no_cyclic_dependencies()`. -/
def assert_no_cyclic_dependencies (env : Nat → Option (List Node)) (cls : Nat) :
    Except PyError Unit :=
  match dependency_graph env cls with
  | .error e => .error e
  | .ok graph =>
    if !graph.is_directed_acyclic_graph then .error .cyclicDependencyException
    else .ok ()

/-- `Feature.root_dependencies()`: nodes of the built graph whose predecessor
list is empty. -/
def root_dependencies (env : Nat → Option (List Node)) (cls : Nat) :
    Except PyError (List Node) :=
  match dependency_graph env cls with
  | .error e => .error e
  | .ok graph => .ok (graph.nodes.filter (fun n => graph.predecessors n = []))

/-! ### Characterisation of the builder

Because `_add_dependencies_to_graph` tests `graph.has_predecessor(dep, cls)`
immediately after `graph.add_edge(cls, dep)` has inserted the edge
`cls → dep`, the recursion guard is always false: the builder performs a
single pass over the root's direct dependencies and never recurses. The
lemmas below make that single pass explicit. -/

/-- The graph update performed for one entry of the `dependencies` list:
`graph.add_node(dep)` followed by `graph.add_edge(cls, dep)`. -/
def dep_step (cls : Nat) (g : Graph) (dep : Node) : Graph :=
  (g.add_node dep).add_edge (Node.feat cls) dep

/-- The fresh graph of `dependency_graph` after `graph.add_node(cls)`. -/
def init_graph (cls : Nat) : Graph :=
  (Graph.mk [] []).add_node (Node.feat cls)

lemma mem_edges_add_edge (g : Graph) (u v : Node) :
    (u, v) ∈ (g.add_edge u v).edges := by
  unfold Graph.add_edge
  by_cases h : (u, v) ∈ ((g.add_node u).add_node v).edges
  · simp [h]
  · simp [h]

lemma has_predecessor_dep_step (cls : Nat) (g : Graph) (dep : Node) :
    (dep_step cls g dep).has_predecessor dep (Node.feat cls) = true := by
  simpa [dep_step, Graph.has_predecessor] using
    mem_edges_add_edge (g.add_node dep) (Node.feat cls) dep

lemma add_dependencies_loop_eq (env : Nat → Option (List Node)) (fuel : Nat)
    (cls : Nat) : ∀ (deps : List Node) (g : Graph),
    add_dependencies_loop env fuel cls deps g =
      .ok (deps.foldl (dep_step cls) g) := by
  intro deps
  induction deps with
  | nil => intro g; rw [add_dependencies_loop.eq_def]; rfl
  | cons dep rest ih =>
    intro g
    rw [add_dependencies_loop.eq_def]
    cases dep with
    | col s => simpa [dep_step] using ih (dep_step cls g (Node.col s))
    | feat d =>
      have hp := has_predecessor_dep_step cls g (Node.feat d)
      simp only [dep_step] at hp
      simpa [dep_step, hp] using ih (dep_step cls g (Node.feat d))

lemma add_dependencies_to_graph_succ (env : Nat → Option (List Node))
    (fuel : Nat) (cls : Nat) (g : Graph) :
    add_dependencies_to_graph env (fuel + 1) cls g =
      match env cls with
      | none => .error .typeError
      | some deps => .ok (deps.foldl (dep_step cls) g) := by
  rw [add_dependencies_to_graph]
  cases env cls with
  | none => rfl
  | some deps => simpa using add_dependencies_loop_eq env fuel cls deps g

lemma dependency_graph_eq (env : Nat → Option (List Node)) (cls : Nat) :
    dependency_graph env cls =
      match env cls with
      | none => .error .typeError
      | some deps => .ok (deps.foldl (dep_step cls) (init_graph cls)) := by
  have h : RECURSION_LIMIT = 999 + 1 := rfl
  unfold dependency_graph
  rw [h, add_dependencies_to_graph_succ]
  rfl

/-! ### `FeatureMeta.__init__` (declaration-time validation) -/

/-- A Python object as far as `FeatureMeta.__init__` compares them: the string
literal `"Feature"` tested for membership, or a base-class object (identified
by its qualified name). Python `==` between a string and a class is `False`,
which the derived structural equality reproduces (distinct constructors). -/
inductive PyObj where
  | str (s : String)
  | cls (qualifiedName : String)
deriving DecidableEq, Repr

/-- The class-body namespace as far as the check reads it: for each name bound
in the body, whether it is bound to a `classmethod` object. -/
def ClassNamespace := List (String × Bool)

/-- `Feature._required_class_methods`. -/
def required_class_methods : List String := ["compute"]

/-- `FeatureMeta.__init__(cls, name, bases, namespace)`: returns early when
`"Feature" not in bases` (the string `"Feature"` is compared against the base
class objects); otherwise collects the required class methods that are not
bound to a `classmethod` in the body and raises `MissingMethodException` when
some are missing. `required` is `getattr(cls, '_required_class_methods', [])`. -/
def FeatureMeta_init (bases : List PyObj) (namespc : ClassNamespace)
    (required : List String) : Except PyError Unit :=
  if PyObj.str "Feature" ∉ bases then .ok ()
  else
    let missing := required.filter (fun method =>
      match namespc.lookup method with
      | some true => false
      | _ => true)
    if missing.isEmpty then .ok () else .error .missingMethodException

/-! ### Concrete dependency declarations used by the claims -/

/-- Diamond: feature `0` (A) depends on `1` (B) and `2` (C); both depend on
`3` (E); `E` has no dependencies. -/
def envDiamond : Nat → Option (List Node) := fun n =>
  if n = 0 then some [Node.feat 1, Node.feat 2]
  else if n = 1 then some [Node.feat 3]
  else if n = 2 then some [Node.feat 3]
  else if n = 3 then some []
  else none

/-- Chain: feature `0` (A) depends on feature `1` (B), which depends on the
bare column reference `"C"`. -/
def envChain : Nat → Option (List Node) := fun n =>
  if n = 0 then some [Node.feat 1]
  else if n = 1 then some [Node.col "C"]
  else none

/-- A transitive cycle: feature `0` depends on feature `1` and vice versa. -/
def envTwoCycle : Nat → Option (List Node) := fun n =>
  if n = 0 then some [Node.feat 1]
  else if n = 1 then some [Node.feat 0]
  else none

/-- A direct self-dependency: feature `0` lists itself. -/
def envSelfLoop : Nat → Option (List Node) := fun n =>
  if n = 0 then some [Node.feat 0] else none

/-- The default declaration: every feature leaves `dependencies = None`. -/
def envNone : Nat → Option (List Node) := fun _ => none

/-! ### Claims -/

/-- C1: the claim says `build(A)` of the diamond has 4 nodes (A,B,C,E) and 4
edges, and `build(A)` of the chain `A→B→C` has 3 nodes and 2 edges. The code
disagrees: the recursion guard of `_add_dependencies_to_graph` is always
false (the `has_predecessor(dep, cls)` test is made just after the edge
`cls → dep` was added, and `isinstance(dep, Feature)` is false for a class),
so only direct dependencies are added: the diamond build has 3 nodes and 2
edges (E is absent), the chain build has 2 nodes and 1 edge (C is absent). -/
theorem diamond_and_chain_build_include_only_direct_dependencies :
    dependency_graph envDiamond 0 =
      .ok (Graph.mk [Node.feat 0, Node.feat 1, Node.feat 2]
        [(Node.feat 0, Node.feat 1), (Node.feat 0, Node.feat 2)]) ∧
    dependency_graph envChain 0 =
      .ok (Graph.mk [Node.feat 0, Node.feat 1]
        [(Node.feat 0, Node.feat 1)]) := by
  constructor <;> (rw [dependency_graph_eq]; rfl)

/-- C2: the claim says `root_dependencies` returns the leaves of the
dependency tree — `[E]` for the diamond and `[C]` for the chain. The code
filters for nodes with an empty predecessor list, and since every recorded
edge points from the root towards its dependencies, the only such node is the
root itself: both queries return `[A]`, which is not the claimed leaf. -/
theorem root_dependencies_returns_root_not_leaf :
    root_dependencies envDiamond 0 = .ok [Node.feat 0] ∧
    root_dependencies envChain 0 = .ok [Node.feat 0] ∧
    ([Node.feat 0] : List Node) ≠ [Node.feat 3] ∧
    ([Node.feat 0] : List Node) ≠ [Node.col "C"] := by
  refine ⟨?_, ?_, by decide, by decide⟩ <;>
    (unfold root_dependencies; rw [dependency_graph_eq]; rfl)

/-- C3: the claim says `assert_no_cyclic_dependencies` raises exactly when the
declarations contain a cycle, including transitive ones. The code only sees
the root's direct edges (the builder never recurses), so the two-feature
cycle `0 ↔ 1` passes the check silently, while a direct self-dependency is
still caught. -/
theorem assert_acyclic_misses_transitive_cycle :
    assert_no_cyclic_dependencies envTwoCycle 0 = .ok () ∧
    envTwoCycle 0 = some [Node.feat 1] ∧
    envTwoCycle 1 = some [Node.feat 0] ∧
    assert_no_cyclic_dependencies envSelfLoop 0 =
      .error .cyclicDependencyException := by
  refine ⟨?_, rfl, rfl, ?_⟩ <;>
    (unfold assert_no_cyclic_dependencies; rw [dependency_graph_eq]; rfl)

/-- C4: the claim says a concrete feature type declared without a compute
function fails at construction with a missing-compute error. The code's
guard `if "Feature" not in bases: return` compares the string `"Feature"`
against the base-class objects, which is always false in Python, so
`FeatureMeta.__init__` returns before the required-method check for every
class: declaring `class MyFeature(Feature)` with an empty body succeeds. The
second conjunct shows the check would reject the empty namespace if the
guard could ever pass. -/
theorem feature_subclass_without_compute_is_accepted :
    FeatureMeta_init [PyObj.cls "Feature"] [] required_class_methods =
      .ok () ∧
    FeatureMeta_init [PyObj.str "Feature"] [] required_class_methods =
      .error .missingMethodException := by
  constructor <;> rfl

/-- C5: building the dependency graph terminates and never raises for every
descriptor set whose root declares a dependency list — including cyclic
declarations — because the recursive branch of `_add_dependencies_to_graph`
is suppressed by the `has_predecessor` test on the freshly added edge. The
second conjunct shows the build is independent of the available recursion
depth (any positive fuel yields the same single-pass result). -/
theorem build_succeeds_on_any_declared_dependencies
    (env : Nat → Option (List Node)) (cls : Nat) (deps : List Node)
    (h : env cls = some deps) :
    dependency_graph env cls =
      .ok (deps.foldl (dep_step cls) (init_graph cls)) ∧
    ∀ fuel : Nat,
      add_dependencies_to_graph env (fuel + 1) cls (init_graph cls) =
        .ok (deps.foldl (dep_step cls) (init_graph cls)) := by
  constructor
  · rw [dependency_graph_eq, h]
  · intro fuel
    rw [add_dependencies_to_graph_succ, h]

/-- C5 witness: the cyclic declaration `0 ↔ 1` still builds successfully. -/
theorem build_succeeds_on_cyclic_declaration :
    dependency_graph envTwoCycle 0 =
      .ok (Graph.mk [Node.feat 0, Node.feat 1]
        [(Node.feat 0, Node.feat 1)]) :=
  (build_succeeds_on_any_declared_dependencies envTwoCycle 0 [Node.feat 1]
    rfl).1

/-- C8: `build`, `assert_no_cyclic_dependencies` and `root_dependencies` are
deterministic, state-free functions of the declared dependency data: two
environments that agree on the root's declaration give identical results
(each call builds its graph afresh; the embedding is pure, mirroring the
source, which mutates only its local `networkx` graph). -/
theorem graph_operations_deterministic_in_declaration
    (env₁ env₂ : Nat → Option (List Node)) (cls : Nat)
    (h : env₁ cls = env₂ cls) :
    dependency_graph env₁ cls = dependency_graph env₂ cls ∧
    assert_no_cyclic_dependencies env₁ cls =
      assert_no_cyclic_dependencies env₂ cls ∧
    root_dependencies env₁ cls = root_dependencies env₂ cls := by
  have hg : dependency_graph env₁ cls = dependency_graph env₂ cls := by
    rw [dependency_graph_eq, dependency_graph_eq, h]
  refine ⟨hg, ?_, ?_⟩
  · unfold assert_no_cyclic_dependencies; rw [hg]
  · unfold root_dependencies; rw [hg]

/-- Two environments agreeing at the root but differing elsewhere. -/
def envWitnessA : Nat → Option (List Node) := fun n =>
  if n = 0 then some [Node.col "x"] else none

/-- Same declaration at the root as `envWitnessA`, different elsewhere. -/
def envWitnessB : Nat → Option (List Node) := fun _ =>
  some [Node.col "x"]

/-- C8 witness: the two environments agree at feature `0`, so the build
results coincide. -/
theorem graph_operations_deterministic_witness :
    dependency_graph envWitnessA 0 = dependency_graph envWitnessB 0 :=
  (graph_operations_deterministic_in_declaration envWitnessA envWitnessB 0
    rfl).1

/-- C10: a feature type whose `dependencies` attribute is left at its default
`None` makes every graph operation raise `TypeError` when the builder
iterates `cls.dependencies`, instead of being treated as having no
dependencies. -/
theorem none_dependencies_raise_type_error
    (env : Nat → Option (List Node)) (cls : Nat) (h : env cls = none) :
    dependency_graph env cls = .error .typeError ∧
    assert_no_cyclic_dependencies env cls = .error .typeError ∧
    root_dependencies env cls = .error .typeError := by
  have hg : dependency_graph env cls = .error .typeError := by
    rw [dependency_graph_eq, h]
  refine ⟨hg, ?_, ?_⟩
  · unfold assert_no_cyclic_dependencies; rw [hg]
  · unfold root_dependencies; rw [hg]

/-- C10 witness: with every `dependencies` attribute left at `None`, all
three operations raise `TypeError` for feature `7`. -/
theorem none_dependencies_raise_type_error_witness :
    dependency_graph envNone 7 = .error .typeError ∧
    assert_no_cyclic_dependencies envNone 7 = .error .typeError ∧
    root_dependencies envNone 7 = .error .typeError :=
  none_dependencies_raise_type_error envNone 7 rfl

end DuckdbFeatureStore

namespace FsLite

/-- A pandas `DataFrame` as far as the executor uses it: ordered named
columns of values (the positional row index is implicit). -/
structure DataFrame where
  cols : List (String × List Int)
deriving DecidableEq, Repr

/-- `df.columns`. -/
def DataFrame.columns (df : DataFrame) : List String :=
  df.cols.map (fun c => c.1)

/-- `input[name]`: the values of the named column (the executor only reads a
column after checking membership in `input.columns`). -/
def DataFrame.getCol (df : DataFrame) (name : String) : List Int :=
  match df.cols.find? (fun c => c.1 == name) with
  | some c => c.2
  | none => []

/-- A Python value returned by a feature's `compute` callable: `None`, a
pandas `DataFrame`, or anything else. `column`'s lambda returns `None`. -/
inductive PyVal where
  | pyNone
  | dataFrame (df : DataFrame)
  | other
deriving Repr

/-- The frozen `Feature` dataclass of `fs_lite/feature.py`. `compute` is
`None` or a callable (an inductive rather than a structure because
`dependencies` nests `Feature` itself). -/
inductive Feature where
  | mk (name : String) (compute : Option (DataFrame → PyVal))
      (descr : Option String) (version : Option String)
      (dependencies : List (String × Feature))
      (index_columns : List String)

/-- `Feature.name`. -/
def Feature.name : Feature → String
  | .mk n _ _ _ _ _ => n

/-- `Feature.compute`. -/
def Feature.compute : Feature → Option (DataFrame → PyVal)
  | .mk _ c _ _ _ _ => c

/-- `Feature.index_columns`. -/
def Feature.index_columns : Feature → List String
  | .mk _ _ _ _ _ ic => ic

/-- `column(name)`: a degenerate column-reference Feature. Note the source
sets `compute` to `lambda table: None` — a callable that returns `None`, not
the value `None` itself. -/
def column (name : String) : Feature :=
  .mk name (some (fun _ => PyVal.pyNone))
    (some "Identifies a given column by name.") (some "1.0.0") [] []

/-- The `ValueError`s `compute_feature` can raise, keyed by their messages. -/
inductive PdError where
  | indexColumnsNotUsed
  | featureNotInInput (name : String)
  | notADataFrame (name : String)
deriving DecidableEq, Repr

/-- The final `output.columns = [feature.name + '_' + str(i) for i, _ in
enumerate(output.columns)]` assignment of `compute_feature`. -/
def set_output_columns (fname : String) (df : DataFrame) : DataFrame :=
  ⟨df.cols.enum.map (fun p => (fname ++ "_" ++ toString p.1, p.2.2))⟩

/-- `compute_feature(input, feature)` from `pandas/pandasfeaturestore.py`. -/
def compute_feature (input : DataFrame) (f : Feature) :
    Except PdError DataFrame :=
  if f.index_columns.length > 0 then .error .indexColumnsNotUsed
  else
    match f.compute with
    | none =>
      if f.name ∈ input.columns then
        .ok (set_output_columns f.name
          (DataFrame.mk [(f.name, input.getCol f.name)]))
      else .error (.featureNotInInput f.name)
    | some c =>
      match c input with
      | PyVal.dataFrame out => .ok (set_output_columns f.name out)
      | _ => .error (.notADataFrame f.name)

/-- `PandasFeatureStore.compute`: per-feature outputs concatenated
column-wise (`pd.concat(..., axis=1)`); an exception from any feature
propagates. -/
def PandasFeatureStore_compute (input : DataFrame)
    (features : List Feature) : Except PdError DataFrame :=
  (features.mapM (fun f => compute_feature input f)).map
    (fun dfs => DataFrame.mk (dfs.flatMap (fun d => d.cols)))

lemma map_enum_eq_map_range {α β : Type} (l : List α) (g : Nat → β) :
    l.enum.map (fun p => g p.1) = (List.range l.length).map g := by
  rw [← List.enum_map_fst l, List.map_map]
  rfl

/-- An input table with a single column `x`. -/
def dfWithX : DataFrame := ⟨[("x", [1, 2, 3])]⟩

/-- C6: the claim says the executor special-cases a column-reference feature
and reads the named column directly instead of calling compute. The code's
special case tests `feature.compute is None`, but `column(name)` sets
`compute` to `lambda table: None` — a callable — so the special case never
fires: the lambda is invoked, returns `None`, and the executor raises
`ValueError(... did not return a DataFrame)` even though the column is
present in the input, as the conjuncts show. -/
theorem column_feature_rejected_by_executor :
    compute_feature dfWithX (column "x") =
      .error (.notADataFrame "x") ∧
    "x" ∈ dfWithX.columns ∧
    ((column "x").compute.map (fun c => c dfWithX)) = some PyVal.pyNone := by
  exact ⟨rfl, by decide, rfl⟩

/-- C7: for every feature, the pandas executor (a) rejects a declared
non-empty `index_columns` with a `ValueError`, since the pandas rows are
positionally indexed, and (b) rejects any compute result that is not a
`DataFrame` with a `ValueError`. -/
theorem executor_rejects_index_columns_and_non_dataframe
    (input : DataFrame) (f : Feature) :
    (f.index_columns ≠ [] →
      compute_feature input f = .error .indexColumnsNotUsed) ∧
    (∀ c, f.index_columns = [] → f.compute = some c →
      (∀ df, c input ≠ PyVal.dataFrame df) →
      compute_feature input f = .error (.notADataFrame f.name)) := by
  constructor
  · intro h
    have hl : 0 < f.index_columns.length := List.length_pos.mpr h
    simp [compute_feature, hl]
  · intro c h0 hc hdf
    have hl : ¬ f.index_columns.length > 0 := by simp [h0]
    cases hv : c input with
    | pyNone => simp [compute_feature, hl, hc, hv]
    | dataFrame df => exact absurd hv (hdf df)
    | other => simp [compute_feature, hl, hc, hv]

/-- A feature declaring an index column. -/
def featWithIndex : Feature := .mk "i" none none none [] ["key"]

/-- A feature whose compute returns a non-DataFrame value. -/
def featNonDF : Feature :=
  .mk "bad" (some (fun _ => PyVal.other)) none none [] []

/-- C7 witness: the two rejections at concrete features. -/
theorem executor_rejects_witness :
    compute_feature dfWithX featWithIndex = .error .indexColumnsNotUsed ∧
    compute_feature dfWithX featNonDF = .error (.notADataFrame "bad") := by
  constructor
  · exact (executor_rejects_index_columns_and_non_dataframe dfWithX
      featWithIndex).1 (by decide)
  · exact (executor_rejects_index_columns_and_non_dataframe dfWithX
      featNonDF).2 (fun _ => PyVal.other) rfl rfl (fun df h => by simp at h)

/-- A single-column feature named `f`. -/
def featSingle : Feature :=
  .mk "f" (some (fun _ => PyVal.dataFrame ⟨[("val", [10, 20])]⟩))
    none none [] []

/-- C9 counterexample: the claim says a single-column feature's output keeps
the feature's name as its column name, with the index suffix appended only
for multi-column outputs. The code renames unconditionally: the one output
column of feature `f` is named `f_0`, not `f`. -/
theorem single_column_output_is_suffixed :
    (compute_feature dfWithX featSingle).map DataFrame.columns =
      .ok ["f_0"] ∧
    (["f_0"] : List String) ≠ ["f"] := by
  exact ⟨rfl, by decide⟩

/-- C9 amended: when merging per-feature outputs, every output column of a
feature receives the positional index suffix — the `i`-th output column of a
feature named `n` is renamed `n_i` — including single-column outputs, whose
column is therefore named `n_0` rather than `n`. -/
theorem output_columns_always_indexed
    (input : DataFrame) (f : Feature) (c : DataFrame → PyVal)
    (out : DataFrame) (h0 : f.index_columns = []) (hc : f.compute = some c)
    (hout : c input = PyVal.dataFrame out) :
    (compute_feature input f).map DataFrame.columns =
      .ok ((List.range out.cols.length).map
        (fun i => f.name ++ "_" ++ toString i)) := by
  have hl : ¬ f.index_columns.length > 0 := by simp [h0]
  have hcols : (set_output_columns f.name out).columns =
      (List.range out.cols.length).map
        (fun i => f.name ++ "_" ++ toString i) := by
    unfold set_output_columns DataFrame.columns
    rw [List.map_map]
    exact map_enum_eq_map_range out.cols
      (fun i => f.name ++ "_" ++ toString i)
  simp [compute_feature, hl, hc, hout, Except.map, hcols]

/-- The two-column output table used by the C9 witness. -/
def multiOut : DataFrame := ⟨[("a", [1]), ("b", [2])]⟩

/-- A two-column feature named `g`. -/
def featMulti : Feature :=
  .mk "g" (some (fun _ => PyVal.dataFrame multiOut)) none none [] []

/-- C9 amended witness: the two output columns of `g` are `g_0` and `g_1`. -/
theorem output_columns_always_indexed_witness :
    (compute_feature dfWithX featMulti).map DataFrame.columns =
      .ok ["g_0", "g_1"] := by
  have h := output_columns_always_indexed dfWithX featMulti
    (fun _ => PyVal.dataFrame multiOut) multiOut rfl rfl rfl
  simpa using h

end FsLite
